import Mathlib

/-!
Verification of the key-rotation core of the Aura crypto-core crate.

The development shallowly embeds the Rust sources:

* `src/libs/crypto-core/src/key_rotation/types.rs` — `KeyVersion`, `KeyStatus`,
  `SecurityEventType`, `RotationTrigger`, `RotationTiming`;
* `src/libs/crypto-core/src/key_rotation.rs` — the legacy monolithic
  `VersionedKey` / `KeyRotationManager` (namespace `Legacy` below), which holds
  `rollback_migration`, `revoke_key_version`, `cleanup_expired_keys` and
  `find_key_for_decryption`;
* `src/libs/crypto-core/src/key_rotation/versioned_key.rs` and `manager.rs` —
  the modular `VersionedKey` with the explicit
  `supported_decryption_versions` allow-list;
* `src/libs/crypto-core/src/key_rotation/scheduler.rs` — `RotationPolicy` and
  `should_trigger_rotation`;
* `src/libs/crypto-core/src/key_rotation/sync.rs` — the cross-device
  commit / reveal / verify protocol.

Modelling conventions: `DateTime<Utc>` timestamps are naturals threaded as
explicit `now` parameters wherever the source calls `Utc::now()`; the `f32`
field `migration_progress` is a rational (the source only ever stores values
produced by `clamp(0.0, 1.0)`, which is exact on the values 0 and 1 that the
verified operations write); raw key handles (`CryptoKey`) and the string
`audit_log` are metadata the verified properties never read and are omitted
from the record types; SHA-256 from the external `sha2` crate is an abstract
function parameter `hashFn`. A per-purpose key list stands for the
`HashMap<String, Vec<VersionedKey>>` entry of that purpose: every manager
operation touches only the entry of the purpose it is called with, and a
missing entry behaves like the empty list (the distinct "Purpose not found" /
"No keys found" error strings are collapsed into one `noKeysFound` failure).
-/

namespace Aura

/-- Version information for cryptographic keys
(`key_rotation/types.rs`, also the structurally identical copy at the top of
`key_rotation.rs`).  `PartialEq` is derived in Rust, so equality compares all
five fields, `created_at` and `expires_at` included. -/
structure KeyVersion where
  major : Nat
  minor : Nat
  patch : Nat
  created_at : Nat
  expires_at : Option Nat
deriving DecidableEq, Repr

namespace KeyVersion

/-- `KeyVersion::new(major, minor, patch)`; `created_at` is `Utc::now()`,
threaded here as `now`, and `expires_at` starts as `None`. -/
def new (major minor patch now : Nat) : KeyVersion :=
  { major, minor, patch, created_at := now, expires_at := none }

/-- `KeyVersion::is_expired`: expired iff an expiry is set and lies strictly
in the past. -/
def is_expired (v : KeyVersion) (now : Nat) : Bool :=
  match v.expires_at with
  | some e => now > e
  | none => false

/-- `KeyVersion::is_compatible_with` (legacy `key_rotation.rs`): keys are
compatible iff the major versions match. -/
def is_compatible_with (v other : KeyVersion) : Bool :=
  v.major == other.major

/-- The semantic-version triple of a `KeyVersion`, as printed by
`KeyVersion::to_string` (`"major.minor.patch"`). -/
def triple (v : KeyVersion) : Nat × Nat × Nat :=
  (v.major, v.minor, v.patch)

end KeyVersion

/-- `KeyStatus` (`key_rotation/types.rs`). -/
inductive KeyStatus where
  | Active
  | Deprecated
  | Revoked
  | Migrating
  | Expired
deriving DecidableEq, Repr

/-- `DataCategory` (`derivation.rs`): the purpose of a key stack. -/
inductive DataCategory where
  | CycleData
  | Preferences
  | HealthcareSharing
  | DeviceSync
deriving DecidableEq, Repr

/-- Failure cases of the legacy manager operations.  The Rust functions
return `Err(JsValue::from_str(...))` with fixed message strings; each
constructor stands for one of those messages. -/
inductive RotationFailure where
  | migrationInProgress
  | noMigrationInProgress
  | noKeysFound
  | keyVersionNotFound
  | keyNotMigrating
deriving DecidableEq, Repr

/-- Rust `f32::clamp(0.0, 1.0)` as used by `set_migration_progress`. -/
def clampUnit (p : ℚ) : ℚ := min 1 (max 0 p)

namespace Legacy

/-- The legacy `VersionedKey` of `key_rotation.rs` (lines 96–124): a single
optional `predecessor_version` rather than the modular key's lists.  The
`CryptoKey` handle and the string `audit_log` are omitted (never read by the
verified properties). -/
structure VersionedKey where
  version : KeyVersion
  status : KeyStatus
  purpose : DataCategory
  predecessor_version : Option KeyVersion
  migration_progress : ℚ
deriving DecidableEq, Repr

namespace VersionedKey

/-- `VersionedKey::new`: fresh keys start `Active` with no predecessor and
zero migration progress. -/
def new (version : KeyVersion) (purpose : DataCategory) : VersionedKey :=
  { version, status := .Active, purpose,
    predecessor_version := none, migration_progress := 0 }

/-- `VersionedKey::set_status` (the audit-log push is omitted). -/
def set_status (k : VersionedKey) (s : KeyStatus) : VersionedKey :=
  { k with status := s }

/-- `VersionedKey::set_migration_progress`: stores the progress clamped to
`[0, 1]`. -/
def set_migration_progress (k : VersionedKey) (p : ℚ) : VersionedKey :=
  { k with migration_progress := clampUnit p }

/-- `VersionedKey::is_usable`: status is `Active` or `Migrating` and the
version is not expired. -/
def is_usable (k : VersionedKey) (now : Nat) : Bool :=
  (k.status == .Active || k.status == .Migrating) && !(k.version.is_expired now)

/-- Legacy `VersionedKey::can_decrypt_data_from_version`
(`key_rotation.rs` lines 182–191): same version, or compatible (same major)
and not older in major, or currently migrating from exactly that version. -/
def can_decrypt_data_from_version (k : VersionedKey) (data_version : KeyVersion) : Bool :=
  k.version == data_version
    || (k.version.is_compatible_with data_version && k.version.major ≥ data_version.major)
    || (k.predecessor_version == some data_version && k.status == .Migrating)

end VersionedKey

/-- `keys.iter_mut().find(|k| k.version == v)` followed by
`key.set_status(s)`: update the first key whose version equals `v`, or
`none` when no key matches.  Shared shape of the predecessor reactivation in
`rollback_migration` and of `revoke_key_version`. -/
def setStatusFirstMatch (v : KeyVersion) (s : KeyStatus) :
    List VersionedKey → Option (List VersionedKey)
  | [] => none
  | k :: rest =>
    if k.version = v then
      some (k.set_status s :: rest)
    else
      (setStatusFirstMatch v s rest).map (k :: ·)

/-- `KeyRotationManager::create_new_key_version` (`key_rotation.rs` lines
535–581) acting on one purpose's key list (newest first).  The external
`CryptoKey::generate()` call is the Cryptographic Engine collaborator and is
modelled as succeeding. -/
def create_new_key_version (purpose : DataCategory) (now : Nat)
    (keys : List VersionedKey) : Except RotationFailure (List VersionedKey) :=
  match keys with
  | [] => .ok [VersionedKey.new (KeyVersion.new 1 0 0 now) purpose]
  | latest :: rest =>
    if latest.status = .Migrating then
      .error .migrationInProgress
    else
      let new_version := KeyVersion.new latest.version.major (latest.version.minor + 1) 0 now
      let deprecated := latest.set_status .Deprecated
      let new_key :=
        ({ VersionedKey.new new_version purpose with
            predecessor_version := some latest.version }).set_status .Migrating
      .ok (new_key :: deprecated :: rest)

/-- `KeyRotationManager::complete_key_migration` (`key_rotation.rs` lines
584–615): requires the newest key to be `Migrating`; sets it `Active` with
progress `1.0`, then pops old keys while more than 3 remain. -/
def complete_key_migration (keys : List VersionedKey) :
    Except RotationFailure (List VersionedKey) :=
  match keys with
  | [] => .error .noKeysFound
  | current :: rest =>
    if current.status = .Migrating then
      let current' := (current.set_status .Active).set_migration_progress 1
      .ok ((current' :: rest).take 3)
    else
      .error .noMigrationInProgress

/-- `KeyRotationManager::rollback_migration` (`key_rotation.rs` lines
980–1015): on a `Migrating` newest key, reset its progress to 0, set it
`Deprecated`, and reactivate the first key whose version equals the linked
predecessor version (if any is present); otherwise fail. -/
def rollback_migration (keys : List VersionedKey) :
    Except RotationFailure (List VersionedKey) :=
  match keys with
  | [] => .error .keyNotMigrating
  | current :: rest =>
    if current.status = .Migrating then
      let current' := (current.set_migration_progress 0).set_status .Deprecated
      let keys' := current' :: rest
      match current.predecessor_version with
      | some pred_version =>
        .ok ((setStatusFirstMatch pred_version .Active keys').getD keys')
      | none => .ok keys'
    else
      .error .keyNotMigrating

/-- `KeyRotationManager::revoke_key_version` (`key_rotation.rs` lines
688–701): set the first key with the given version to `Revoked`, or fail if
no key matches. -/
def revoke_key_version (version : KeyVersion) (keys : List VersionedKey) :
    Except RotationFailure (List VersionedKey) :=
  match setStatusFirstMatch version .Revoked keys with
  | some keys' => .ok keys'
  | none => .error .keyVersionNotFound

/-- `KeyRotationManager::cleanup_expired_keys` (`key_rotation.rs` lines
655–685) on one purpose's list: remove every key that is expired and not
usable, provided the list has more than one element (the length test in the
source is evaluated against the unmodified list while indices are
collected). -/
def cleanup_expired_keys (now : Nat) (keys : List VersionedKey) :
    List VersionedKey :=
  if keys.length ≤ 1 then keys
  else keys.filter (fun k => !(k.version.is_expired now && !k.is_usable now))

/-- `KeyRotationManager::find_key_for_decryption` (`key_rotation.rs` lines
716–733): exact usable version match first, else the first usable key whose
`can_decrypt_data_from_version` accepts the data version. -/
def find_key_for_decryption (now : Nat) (data_version : KeyVersion)
    (keys : List VersionedKey) : Option VersionedKey :=
  match keys.find? (fun k => k.version == data_version && k.is_usable now) with
  | some exact => some exact
  | none => keys.find? (fun k => k.can_decrypt_data_from_version data_version && k.is_usable now)

/-- States of one purpose's key list reachable from an absent / empty entry
by any sequence of successful manager operations.  A failing operation
returns before mutating the list, so error results leave the state
unchanged and need no transition. -/
inductive ReachableKeys (purpose : DataCategory) : List VersionedKey → Prop where
  | init : ReachableKeys purpose []
  | create (now : Nat) (ks ks' : List VersionedKey) :
      ReachableKeys purpose ks →
      create_new_key_version purpose now ks = .ok ks' →
      ReachableKeys purpose ks'
  | complete (ks ks' : List VersionedKey) :
      ReachableKeys purpose ks →
      complete_key_migration ks = .ok ks' →
      ReachableKeys purpose ks'
  | rollback (ks ks' : List VersionedKey) :
      ReachableKeys purpose ks →
      rollback_migration ks = .ok ks' →
      ReachableKeys purpose ks'
  | revoke (v : KeyVersion) (ks ks' : List VersionedKey) :
      ReachableKeys purpose ks →
      revoke_key_version v ks = .ok ks' →
      ReachableKeys purpose ks'
  | cleanup (now : Nat) (ks : List VersionedKey) :
      ReachableKeys purpose ks →
      ReachableKeys purpose (cleanup_expired_keys now ks)

/-- Number of keys with status `Migrating` in a purpose's list. -/
def migratingCount (keys : List VersionedKey) : Nat :=
  keys.countP (fun k => k.status == .Migrating)

/-- Strengthened invariant carried through the reachability induction: every
key except possibly the newest (front) one is in a non-`Migrating` status. -/
def onlyHeadMigrating (keys : List VersionedKey) : Prop :=
  ∀ k ∈ keys.drop 1, k.status ≠ .Migrating

end Legacy

/-- `SecurityEventType` (`key_rotation/types.rs`). -/
inductive SecurityEventType where
  | DeviceCompromise
  | UnauthorizedAccess
  | SuspiciousActivity
  | DataBreach
  | NetworkIntrusion
  | MalwareDetected
  | UserReported
deriving DecidableEq, Repr

/-- `RotationTrigger` (`key_rotation/types.rs`). -/
inductive RotationTrigger where
  | TimeBased
  | UsageBased
  | EventBased
  | Manual
  | Emergency
deriving DecidableEq, Repr

/-- `RotationTiming` (`key_rotation/types.rs`). -/
inductive RotationTiming where
  | Immediate
  | LowUsage
  | Scheduled
  | UserControlled
  | Background
deriving DecidableEq, Repr

/-- `RotationPolicy` (`key_rotation/scheduler.rs` lines 10–22). -/
structure RotationPolicy where
  max_age_days : Nat
  max_usage_count : Option Nat
  force_rotation_on_compromise : Bool
  requires_user_confirmation : Bool
  trigger_type : RotationTrigger
  timing_preference : RotationTiming
  security_event_triggers : List SecurityEventType
  low_usage_threshold_hours : Nat
  emergency_rotation_enabled : Bool
deriving DecidableEq, Repr

namespace RotationPolicy

/-- `RotationPolicy::new(max_age_days)` with the source's defaults. -/
def new (max_age_days : Nat) : RotationPolicy :=
  { max_age_days
    max_usage_count := none
    force_rotation_on_compromise := true
    requires_user_confirmation := false
    trigger_type := .TimeBased
    timing_preference := .LowUsage
    security_event_triggers := [.DeviceCompromise, .DataBreach, .UnauthorizedAccess]
    low_usage_threshold_hours := 4
    emergency_rotation_enabled := true }

/-- `RotationPolicy::should_trigger_rotation` (`scheduler.rs` lines 127–157):
a present security event that is registered as a trigger forces `true` when
emergency rotation is enabled; otherwise the configured `trigger_type`
decides. -/
def should_trigger_rotation (p : RotationPolicy) (current_age_hours : Nat)
    (usage_count : Nat) (security_event : Option SecurityEventType) : Bool :=
  if security_event.any (fun event =>
      p.emergency_rotation_enabled && p.security_event_triggers.contains event) then
    true
  else
    match p.trigger_type with
    | .TimeBased => decide (p.max_age_days * 24 ≤ current_age_hours)
    | .UsageBased =>
      match p.max_usage_count with
      | some max_count => decide (max_count ≤ usage_count)
      | none => false
    | .EventBased => security_event.isSome
    | .Manual => false
    | .Emergency => true

end RotationPolicy

namespace Modular

/-- The modular `VersionedKey` (`key_rotation/versioned_key.rs` lines 63–78),
re-exported by `key_rotation/mod.rs` as the crate's `VersionedKey`.  The
`CryptoKey` handle and the string `audit_log` are omitted (never read by the
verified properties). -/
structure VersionedKey where
  version : KeyVersion
  status : KeyStatus
  purpose : DataCategory
  predecessor_versions : List KeyVersion
  supported_decryption_versions : List KeyVersion
  migration_progress : ℚ
  creation_time : Nat
  last_used_time : Option Nat
  usage_count : Nat
  integrity_hash : Option String
deriving DecidableEq, Repr

namespace VersionedKey

/-- `VersionedKey::new`: starts `Active`, supporting decryption of exactly
its own version. -/
def new (version : KeyVersion) (purpose : DataCategory) (now : Nat) : VersionedKey :=
  { version, status := .Active, purpose
    predecessor_versions := []
    supported_decryption_versions := [version]
    migration_progress := 0
    creation_time := now
    last_used_time := none
    usage_count := 0
    integrity_hash := none }

/-- Modular `VersionedKey::can_decrypt_data_from_version`
(`versioned_key.rs` lines 181–185): membership in the explicit
`supported_decryption_versions` allow-list. -/
def can_decrypt_data_from_version (k : VersionedKey) (data_version : KeyVersion) : Bool :=
  k.supported_decryption_versions.contains data_version

/-- `VersionedKey::add_predecessor_version` (`versioned_key.rs` lines
221–229): append to both `predecessor_versions` and
`supported_decryption_versions` unless already a predecessor. -/
def add_predecessor_version (k : VersionedKey) (predecessor : KeyVersion) : VersionedKey :=
  if k.predecessor_versions.contains predecessor then k
  else
    { k with
      predecessor_versions := k.predecessor_versions ++ [predecessor]
      supported_decryption_versions := k.supported_decryption_versions ++ [predecessor] }

end VersionedKey

/-- `KeyRotationManager::get_key_by_version` (`key_rotation/manager.rs`
lines 45–55) on one purpose's list: the first key whose version equals the
requested one, under full (derived) `KeyVersion` equality. -/
def get_key_by_version (keys : List VersionedKey) (version : KeyVersion) :
    Option VersionedKey :=
  keys.find? (fun k => k.version == version)

end Modular

namespace Sync

/-- `HashMap::insert` on a map represented as an association list: replace
the value stored at an existing key, otherwise add a new entry.  Only
lookup and entry count are observed by the protocol, so the representation
order is irrelevant. -/
def assocInsert {β : Type} (m : List (String × β)) (key : String) (val : β) :
    List (String × β) :=
  if m.any (fun p => p.fst == key) then
    m.map (fun p => if p.fst == key then (key, val) else p)
  else
    m ++ [(key, val)]

/-- `HashMap::get` on the association-list representation. -/
def assocFind {β : Type} (m : List (String × β)) (key : String) : Option β :=
  (m.find? (fun p => p.fst == key)).map Prod.snd

/-- `DeviceCommitment` (`key_rotation/sync.rs` lines 36–42). -/
structure DeviceCommitment where
  device_id : String
  commitment_hash : String
  nonce : String
  timestamp : Nat
deriving DecidableEq, Repr

/-- `DeviceReveal` (`sync.rs` lines 44–50). -/
structure DeviceReveal where
  device_id : String
  rotation_proof : String
  integrity_hash : String
  completion_timestamp : Nat
deriving DecidableEq, Repr

/-- `VerificationProof` (`sync.rs` lines 52–58). -/
structure VerificationProof where
  device_id : String
  verification_hash : String
  signature : String
  verified_at : Nat
deriving DecidableEq, Repr

/-- `ProtocolState` (`sync.rs` lines 60–68). -/
inductive ProtocolState where
  | Initialized
  | CommitmentPhase
  | RevealPhase
  | VerificationPhase
  | Completed
  | Failed (reason : String)
deriving DecidableEq, Repr

/-- `CoordinationState` (`sync.rs` lines 70–79). -/
inductive CoordinationState where
  | Initiating
  | WaitingForDevices
  | RotationInProgress
  | VerifyingCompletion
  | Completed
  | Failed (reason : String)
  | ConflictResolution
deriving DecidableEq, Repr

/-- `SyncState` (`sync.rs` lines 81–88). -/
inductive SyncState where
  | Synchronized
  | Synchronizing
  | OutOfSync
  | ConflictDetected
  | ResolutionRequired
deriving DecidableEq, Repr

/-- `ZeroKnowledgeProtocol` (`sync.rs` lines 28–34). -/
structure ZeroKnowledgeProtocol where
  commitment_phase : List (String × DeviceCommitment)
  reveal_phase : List (String × DeviceReveal)
  verification_phase : List (String × VerificationProof)
  protocol_state : ProtocolState
deriving DecidableEq, Repr

/-- `ZeroKnowledgeProtocol::new`. -/
def ZeroKnowledgeProtocol.new : ZeroKnowledgeProtocol :=
  { commitment_phase := [], reveal_phase := [], verification_phase := []
    protocol_state := .Initialized }

/-- `RotationCoordinator` (`sync.rs` lines 17–26). -/
structure RotationCoordinator where
  rotation_id : String
  initiating_device : String
  participating_devices : List String
  coordination_state : CoordinationState
  rotation_timestamp : Nat
  zero_knowledge_protocol : ZeroKnowledgeProtocol
deriving DecidableEq, Repr

/-- `RotationCoordinator::new` (`sync.rs` lines 437–448). -/
def RotationCoordinator.new (now : Nat) : RotationCoordinator :=
  { rotation_id := "", initiating_device := "", participating_devices := []
    coordination_state := .Initiating, rotation_timestamp := now
    zero_knowledge_protocol := ZeroKnowledgeProtocol.new }

/-- `CrossDeviceRotationSync` (`sync.rs` lines 8–15).  The
`offline_devices` map is omitted: none of the commitment / reveal
operations verified here read or write it. -/
structure CrossDeviceRotationSync where
  device_id : String
  rotation_coordinator : RotationCoordinator
  sync_state : SyncState
deriving DecidableEq, Repr

namespace CrossDeviceRotationSync

/-- `CrossDeviceRotationSync::new(device_id)`. -/
def new (device_id : String) (now : Nat) : CrossDeviceRotationSync :=
  { device_id, rotation_coordinator := RotationCoordinator.new now
    sync_state := .Synchronized }

/-- Commitments stored by the coordinator (keyed by device id). -/
def commitments (s : CrossDeviceRotationSync) : List (String × DeviceCommitment) :=
  s.rotation_coordinator.zero_knowledge_protocol.commitment_phase

/-- Reveals stored by the coordinator (keyed by device id). -/
def reveals (s : CrossDeviceRotationSync) : List (String × DeviceReveal) :=
  s.rotation_coordinator.zero_knowledge_protocol.reveal_phase

/-- The coordinator's participating-device list. -/
def participants (s : CrossDeviceRotationSync) : List String :=
  s.rotation_coordinator.participating_devices

/-- The zero-knowledge protocol phase. -/
def protocolState (s : CrossDeviceRotationSync) : ProtocolState :=
  s.rotation_coordinator.zero_knowledge_protocol.protocol_state

/-- The coordination state. -/
def coordinationState (s : CrossDeviceRotationSync) : CoordinationState :=
  s.rotation_coordinator.coordination_state

/-- Helper for the nested record updates of the mutating Rust methods. -/
def updateProtocol (s : CrossDeviceRotationSync)
    (f : ZeroKnowledgeProtocol → ZeroKnowledgeProtocol) : CrossDeviceRotationSync :=
  { s with rotation_coordinator :=
      { s.rotation_coordinator with
        zero_knowledge_protocol := f s.rotation_coordinator.zero_knowledge_protocol } }

/-- `CrossDeviceRotationSync::initiate_cross_device_rotation` (`sync.rs`
lines 170–196): rebuild the coordinator for the new rotation, then
`initialize_zero_knowledge_protocol` moves the protocol to
`CommitmentPhase` and `start_device_coordination` moves coordination to
`WaitingForDevices`.  The fresh `Uuid` is threaded as `rotation_id`; the
`rotation_type` argument is never read by the body and is dropped. -/
def initiate_cross_device_rotation (s : CrossDeviceRotationSync)
    (rotation_id : String) (participating_devices : List String) (now : Nat) :
    CrossDeviceRotationSync :=
  { s with rotation_coordinator :=
      { rotation_id
        initiating_device := s.device_id
        participating_devices
        coordination_state := .WaitingForDevices
        rotation_timestamp := now
        zero_knowledge_protocol :=
          { ZeroKnowledgeProtocol.new with protocol_state := .CommitmentPhase } } }

/-- `all_devices_committed` (`sync.rs` lines 481–484): the stored commitment
count has reached the participating-device count. -/
def all_devices_committed (s : CrossDeviceRotationSync) : Bool :=
  decide (s.rotation_coordinator.participating_devices.length ≤
    s.rotation_coordinator.zero_knowledge_protocol.commitment_phase.length)

/-- `all_devices_revealed` (`sync.rs` lines 486–489). -/
def all_devices_revealed (s : CrossDeviceRotationSync) : Bool :=
  decide (s.rotation_coordinator.participating_devices.length ≤
    s.rotation_coordinator.zero_knowledge_protocol.reveal_phase.length)

/-- `advance_to_reveal_phase` (`sync.rs` lines 491–495). -/
def advance_to_reveal_phase (s : CrossDeviceRotationSync) : CrossDeviceRotationSync :=
  let s' := s.updateProtocol (fun z => { z with protocol_state := .RevealPhase })
  { s' with rotation_coordinator :=
      { s'.rotation_coordinator with coordination_state := .RotationInProgress } }

/-- `advance_to_verification_phase` (`sync.rs` lines 497–501). -/
def advance_to_verification_phase (s : CrossDeviceRotationSync) : CrossDeviceRotationSync :=
  let s' := s.updateProtocol (fun z => { z with protocol_state := .VerificationPhase })
  { s' with rotation_coordinator :=
      { s'.rotation_coordinator with coordination_state := .VerifyingCompletion } }

/-- `process_device_commitment` (`sync.rs` lines 199–224): store the
commitment under the submitting device's id, then advance to the reveal
phase as soon as `all_devices_committed` holds.  The Rust method always
returns `Ok(())`, so the model returns just the updated state. -/
def process_device_commitment (s : CrossDeviceRotationSync)
    (device_id commitment_hash nonce : String) (now : Nat) : CrossDeviceRotationSync :=
  let commitment : DeviceCommitment :=
    { device_id, commitment_hash, nonce, timestamp := now }
  let s' := s.updateProtocol (fun z =>
    { z with commitment_phase := assocInsert z.commitment_phase device_id commitment })
  if s'.all_devices_committed then s'.advance_to_reveal_phase else s'

/-- `verify_device_commitment` (`sync.rs` lines 503–511): recompute
`H(rotation_proof, stored nonce)` and compare with the stored commitment
hash; `false` when the device has no stored commitment.  `H` is SHA-256
from the external `sha2` crate, abstracted as `hashFn`. -/
def verify_device_commitment (hashFn : String → String → String)
    (s : CrossDeviceRotationSync) (device_id rotation_proof : String) : Bool :=
  match assocFind s.commitments device_id with
  | some commitment => hashFn rotation_proof commitment.nonce == commitment.commitment_hash
  | none => false

/-- `process_device_reveal` (`sync.rs` lines 227–257): reject (before any
mutation) when `verify_device_commitment` fails, otherwise store the reveal
and advance once `all_devices_revealed`.  The pair models Rust's
`(Result, mutated self)`. -/
def process_device_reveal (hashFn : String → String → String)
    (s : CrossDeviceRotationSync)
    (device_id rotation_proof integrity_hash : String) (now : Nat) :
    Except String Unit × CrossDeviceRotationSync :=
  if s.verify_device_commitment hashFn device_id rotation_proof then
    let reveal : DeviceReveal :=
      { device_id, rotation_proof, integrity_hash, completion_timestamp := now }
    let s' := s.updateProtocol (fun z =>
      { z with reveal_phase := assocInsert z.reveal_phase device_id reveal })
    if s'.all_devices_revealed then (.ok (), s'.advance_to_verification_phase)
    else (.ok (), s')
  else
    (.error "Invalid commitment verification", s)

end CrossDeviceRotationSync

end Sync

/-- One key created for `CycleData`: state after the first
`create_new_key_version` on an empty purpose (at time 1). -/
def demoKeys1 : List Legacy.VersionedKey :=
  [Legacy.VersionedKey.new (KeyVersion.new 1 0 0 1) .CycleData]

/-- State after a second `create_new_key_version` (at time 2): version
1.1.0 is `Migrating` on top of the deprecated 1.0.0 key. -/
def demoKeys2 : List Legacy.VersionedKey :=
  (Legacy.create_new_key_version .CycleData 2 demoKeys1).toOption.getD []

/-- Scenario A of the specification, run against the legacy manager: two
sequential rotations on one purpose, each completed with
`complete_key_migration`. -/
def scenarioProfile : Except RotationFailure (List Legacy.VersionedKey) := do
  let s1 ← Legacy.create_new_key_version .Preferences 1 []
  let s2 ← Legacy.create_new_key_version .Preferences 2 s1
  let s3 ← Legacy.complete_key_migration s2
  let s4 ← Legacy.create_new_key_version .Preferences 3 s3
  Legacy.complete_key_migration s4

/-- The key list produced by `scenarioProfile`. -/
def profileKeys : List Legacy.VersionedKey :=
  scenarioProfile.toOption.getD []

/-- A cross-device rotation freshly initiated by `device-a` with
participating devices `device-a` and `device-b`. -/
def demoSyncInit : Sync.CrossDeviceRotationSync :=
  (Sync.CrossDeviceRotationSync.new "device-a" 0).initiate_cross_device_rotation
    "rotation-1" ["device-a", "device-b"] 0

/-- `demoSyncInit` after a commitment from `device-c`, which is not a
participating device. -/
def demoSyncC1 : Sync.CrossDeviceRotationSync :=
  demoSyncInit.process_device_commitment "device-c" "hash-c" "nonce-c" 1

/-- `demoSyncC1` after a further commitment from `device-d`, also not a
participating device. -/
def demoSyncC2 : Sync.CrossDeviceRotationSync :=
  demoSyncC1.process_device_commitment "device-d" "hash-d" "nonce-d" 2

namespace Legacy

lemma onlyHeadMigrating_cons {k : VersionedKey} {rest : List VersionedKey} :
    onlyHeadMigrating (k :: rest) ↔ ∀ x ∈ rest, x.status ≠ .Migrating := by
  simp [onlyHeadMigrating]

lemma onlyHeadMigrating_of_allNot {keys : List VersionedKey}
    (h : ∀ x ∈ keys, x.status ≠ KeyStatus.Migrating) : onlyHeadMigrating keys :=
  fun k hk => h k (List.drop_subset 1 keys hk)

lemma allNot_setStatusFirstMatch {v : KeyVersion} {s : KeyStatus}
    (hs : s ≠ KeyStatus.Migrating) :
    ∀ {l l' : List VersionedKey}, setStatusFirstMatch v s l = some l' →
      (∀ x ∈ l, x.status ≠ KeyStatus.Migrating) →
      ∀ x ∈ l', x.status ≠ KeyStatus.Migrating := by
  intro l
  induction l with
  | nil => intro l' h; simp [setStatusFirstMatch] at h
  | cons k rest ih =>
    intro l' h hall
    by_cases hv : k.version = v
    · simp only [setStatusFirstMatch, if_pos hv, Option.some.injEq] at h
      subst h
      intro x hx
      rcases List.mem_cons.mp hx with hx | hx
      · subst hx; simpa [VersionedKey.set_status] using hs
      · exact hall x (List.mem_cons_of_mem _ hx)
    · simp only [setStatusFirstMatch, if_neg hv, Option.map_eq_some'] at h
      rcases h with ⟨rest', hrest', hl'⟩
      subst hl'
      intro x hx
      rcases List.mem_cons.mp hx with hx | hx
      · subst hx; exact hall x (List.mem_cons_self _ _)
      · exact ih hrest' (fun y hy => hall y (List.mem_cons_of_mem _ hy)) x hx

lemma onlyHead_create {purpose : DataCategory} {now : Nat}
    {ks ks' : List VersionedKey}
    (hok : create_new_key_version purpose now ks = .ok ks')
    (hinv : onlyHeadMigrating ks) : onlyHeadMigrating ks' := by
  cases ks with
  | nil =>
    simp only [create_new_key_version, Except.ok.injEq] at hok
    subst hok
    simp [onlyHeadMigrating]
  | cons latest rest =>
    by_cases hmig : latest.status = KeyStatus.Migrating
    · simp [create_new_key_version, hmig] at hok
    · simp only [create_new_key_version, if_neg hmig, Except.ok.injEq] at hok
      subst hok
      rw [onlyHeadMigrating_cons]
      intro x hx
      rcases List.mem_cons.mp hx with hx | hx
      · subst hx; simp [VersionedKey.set_status]
      · exact (onlyHeadMigrating_cons.mp hinv) x hx

lemma onlyHead_complete {ks ks' : List VersionedKey}
    (hok : complete_key_migration ks = .ok ks')
    (hinv : onlyHeadMigrating ks) : onlyHeadMigrating ks' := by
  cases ks with
  | nil => simp [complete_key_migration] at hok
  | cons current rest =>
    by_cases hmig : current.status = KeyStatus.Migrating
    · simp only [complete_key_migration, if_pos hmig, Except.ok.injEq] at hok
      subst hok
      rw [List.take_succ_cons, onlyHeadMigrating_cons]
      intro x hx
      exact (onlyHeadMigrating_cons.mp hinv) x (List.take_subset _ _ hx)
    · simp [complete_key_migration, if_neg hmig] at hok

lemma onlyHead_rollback {ks ks' : List VersionedKey}
    (hok : rollback_migration ks = .ok ks')
    (hinv : onlyHeadMigrating ks) : onlyHeadMigrating ks' := by
  cases ks with
  | nil => simp [rollback_migration] at hok
  | cons current rest =>
    by_cases hmig : current.status = KeyStatus.Migrating
    · have hall : ∀ x ∈ ((current.set_migration_progress 0).set_status .Deprecated) :: rest,
          x.status ≠ KeyStatus.Migrating := by
        intro x hx
        rcases List.mem_cons.mp hx with hx | hx
        · subst hx; simp [VersionedKey.set_status]
        · exact (onlyHeadMigrating_cons.mp hinv) x hx
      cases hpred : current.predecessor_version with
      | none =>
        simp only [rollback_migration, if_pos hmig, hpred, Except.ok.injEq] at hok
        subst hok
        exact onlyHeadMigrating_of_allNot hall
      | some pv =>
        simp only [rollback_migration, if_pos hmig, hpred, Except.ok.injEq] at hok
        subst hok
        cases hmatch : setStatusFirstMatch pv KeyStatus.Active
            (((current.set_migration_progress 0).set_status .Deprecated) :: rest) with
        | none => exact onlyHeadMigrating_of_allNot hall
        | some updated =>
          exact onlyHeadMigrating_of_allNot
            (allNot_setStatusFirstMatch (by simp) hmatch hall)
    · simp [rollback_migration, if_neg hmig] at hok

lemma onlyHead_revoke {v : KeyVersion} {ks ks' : List VersionedKey}
    (hok : revoke_key_version v ks = .ok ks')
    (hinv : onlyHeadMigrating ks) : onlyHeadMigrating ks' := by
  cases ks with
  | nil => simp [revoke_key_version, setStatusFirstMatch] at hok
  | cons k rest =>
    by_cases hv : k.version = v
    · simp only [revoke_key_version, setStatusFirstMatch, if_pos hv, Except.ok.injEq] at hok
      subst hok
      rw [onlyHeadMigrating_cons]
      exact onlyHeadMigrating_cons.mp hinv
    · simp only [revoke_key_version, setStatusFirstMatch, if_neg hv] at hok
      cases hrest : setStatusFirstMatch v KeyStatus.Revoked rest with
      | none => rw [hrest] at hok; simp at hok
      | some rest' =>
        rw [hrest] at hok
        simp only [Option.map_some', Except.ok.injEq] at hok
        subst hok
        rw [onlyHeadMigrating_cons]
        exact allNot_setStatusFirstMatch (by simp) hrest (onlyHeadMigrating_cons.mp hinv)

lemma onlyHead_cleanup {now : Nat} {ks : List VersionedKey}
    (hinv : onlyHeadMigrating ks) : onlyHeadMigrating (cleanup_expired_keys now ks) := by
  unfold cleanup_expired_keys
  split
  · exact hinv
  · cases ks with
    | nil => simp [onlyHeadMigrating]
    | cons k rest =>
      rw [List.filter_cons]
      split
      · rw [onlyHeadMigrating_cons]
        intro x hx
        exact (onlyHeadMigrating_cons.mp hinv) x (List.mem_of_mem_filter hx)
      · exact onlyHeadMigrating_of_allNot
          (fun x hx => (onlyHeadMigrating_cons.mp hinv) x (List.mem_of_mem_filter hx))

lemma onlyHead_of_reachable {purpose : DataCategory} {ks : List VersionedKey}
    (h : ReachableKeys purpose ks) : onlyHeadMigrating ks := by
  induction h with
  | init => simp [onlyHeadMigrating]
  | create now ks ks' _ hok ih => exact onlyHead_create hok ih
  | complete ks ks' _ hok ih => exact onlyHead_complete hok ih
  | rollback ks ks' _ hok ih => exact onlyHead_rollback hok ih
  | revoke v ks ks' _ hok ih => exact onlyHead_revoke hok ih
  | cleanup now ks _ ih => exact onlyHead_cleanup ih

lemma migratingCount_le_one_of_onlyHead {ks : List VersionedKey}
    (h : onlyHeadMigrating ks) : migratingCount ks ≤ 1 := by
  cases ks with
  | nil => simp [migratingCount]
  | cons k rest =>
    have hzero : rest.countP (fun k => k.status == KeyStatus.Migrating) = 0 := by
      rw [List.countP_eq_zero]
      intro a ha
      simpa using (onlyHeadMigrating_cons.mp h) a ha
    rw [migratingCount, List.countP_cons, hzero]
    split <;> simp

lemma setStatusFirstMatch_none_find {v : KeyVersion} {s : KeyStatus} :
    ∀ {l : List VersionedKey}, setStatusFirstMatch v s l = none →
      l.find? (fun x => x.version == v) = none := by
  intro l
  induction l with
  | nil => intro _; rfl
  | cons k rest ih =>
    intro h
    by_cases hv : k.version = v
    · simp [setStatusFirstMatch, hv] at h
    · simp only [setStatusFirstMatch, if_neg hv, Option.map_eq_none'] at h
      rw [List.find?_cons_of_neg _ (by simp [hv])]
      exact ih h

lemma setStatusFirstMatch_find_active {v : KeyVersion} :
    ∀ {l l' : List VersionedKey},
      setStatusFirstMatch v KeyStatus.Active l = some l' →
      ∀ m, l'.find? (fun x => x.version == v) = some m → m.status = KeyStatus.Active := by
  intro l
  induction l with
  | nil => intro l' h; simp [setStatusFirstMatch] at h
  | cons k rest ih =>
    intro l' h m hfind
    by_cases hv : k.version = v
    · simp only [setStatusFirstMatch, if_pos hv, Option.some.injEq] at h
      subst h
      rw [List.find?_cons_of_pos _ (by simp [VersionedKey.set_status, hv])] at hfind
      simp only [Option.some.injEq] at hfind
      subst hfind
      simp [VersionedKey.set_status]
    · simp only [setStatusFirstMatch, if_neg hv, Option.map_eq_some'] at h
      rcases h with ⟨rest', hrest', hl'⟩
      subst hl'
      rw [List.find?_cons_of_neg _ (by simp [hv])] at hfind
      exact ih hrest' m hfind

/-- Claim C1: for every purpose and every state of the per-purpose key list
reachable by any sequence of `create_new_key_version`,
`complete_key_migration`, `rollback_migration`, `revoke_key_version` and
`cleanup_expired_keys` operations, at most one key has status
`Migrating`. -/
theorem migrating_count_at_most_one (purpose : DataCategory)
    (ks : List VersionedKey) (h : ReachableKeys purpose ks) :
    migratingCount ks ≤ 1 :=
  migratingCount_le_one_of_onlyHead (onlyHead_of_reachable h)

/-- Witness for `migrating_count_at_most_one`: the state reached by two
consecutive `create_new_key_version` calls (its newest key is
`Migrating`). -/
theorem migrating_count_at_most_one_witness :
    ReachableKeys DataCategory.CycleData demoKeys2 ∧ migratingCount demoKeys2 ≤ 1 := by
  have h1 : ReachableKeys DataCategory.CycleData demoKeys1 :=
    ReachableKeys.create 1 [] demoKeys1 ReachableKeys.init rfl
  have h2 : ReachableKeys DataCategory.CycleData demoKeys2 :=
    ReachableKeys.create 2 demoKeys1 demoKeys2 h1 rfl
  exact ⟨h2, migrating_count_at_most_one _ _ h2⟩

/-- Claim C2: once a purpose holds at least one key, a successful
`create_new_key_version` followed by another `create_new_key_version`
without an intervening `complete_key_migration` fails with
`MigrationInProgress`; in general the call fails with `MigrationInProgress`
exactly when the current newest key is `Migrating`, and succeeds
otherwise. -/
theorem create_new_key_version_second_call :
    (∀ (p : DataCategory) (now1 now2 : Nat) (ks ks' : List VersionedKey),
        ks ≠ [] →
        create_new_key_version p now1 ks = .ok ks' →
        create_new_key_version p now2 ks' = .error .migrationInProgress) ∧
    (∀ (p : DataCategory) (now : Nat) (ks : List VersionedKey),
        create_new_key_version p now ks = .error .migrationInProgress ↔
          ks.head?.map VersionedKey.status = some KeyStatus.Migrating) ∧
    (∀ (p : DataCategory) (now : Nat) (ks : List VersionedKey),
        ks.head?.map VersionedKey.status ≠ some KeyStatus.Migrating →
          (create_new_key_version p now ks).toOption.isSome = true) := by
  refine ⟨?_, ?_, ?_⟩
  · intro p now1 now2 ks ks' hne hok
    cases ks with
    | nil => exact absurd rfl hne
    | cons latest rest =>
      by_cases hm : latest.status = KeyStatus.Migrating
      · simp [create_new_key_version, hm] at hok
      · simp only [create_new_key_version, if_neg hm, Except.ok.injEq] at hok
        subst hok
        simp [create_new_key_version, VersionedKey.set_status]
  · intro p now ks
    cases ks with
    | nil => simp [create_new_key_version]
    | cons latest rest =>
      by_cases hm : latest.status = KeyStatus.Migrating
      · simp [create_new_key_version, hm]
      · simp [create_new_key_version, hm]
  · intro p now ks h
    cases ks with
    | nil => simp [create_new_key_version, Except.toOption]
    | cons latest rest =>
      by_cases hm : latest.status = KeyStatus.Migrating
      · exact absurd (by simp [hm]) h
      · simp [create_new_key_version, if_neg hm, Except.toOption]

/-- Witness for `create_new_key_version_second_call`: on a purpose with one
key, the first call succeeds and the second returns
`MigrationInProgress`. -/
theorem create_new_key_version_second_call_witness :
    demoKeys1 ≠ [] ∧
    create_new_key_version DataCategory.CycleData 2 demoKeys1 = .ok demoKeys2 ∧
    create_new_key_version DataCategory.CycleData 3 demoKeys2 =
      .error RotationFailure.migrationInProgress := by
  refine ⟨by decide, rfl, ?_⟩
  exact create_new_key_version_second_call.1 DataCategory.CycleData 2 3 demoKeys1
    demoKeys2 (by decide) rfl

/-- Claim C6: `complete_key_migration` fails with "No migration in
progress" when the newest key is not `Migrating`; on a `Migrating` newest
key it succeeds and the key ends `Active` with `migration_progress`
exactly 1. -/
theorem complete_key_migration_spec (ks : List VersionedKey) (k : VersionedKey)
    (hhead : ks.head? = some k) :
    (k.status ≠ KeyStatus.Migrating →
      complete_key_migration ks = .error RotationFailure.noMigrationInProgress) ∧
    (k.status = KeyStatus.Migrating →
      ((complete_key_migration ks).map fun l =>
          l.head?.map fun c => (c.status, c.migration_progress)) =
        .ok (some (KeyStatus.Active, (1 : ℚ)))) := by
  cases ks with
  | nil => simp at hhead
  | cons current rest =>
    simp only [List.head?_cons, Option.some.injEq] at hhead
    subst hhead
    constructor
    · intro hm
      simp [complete_key_migration, hm]
    · intro hm
      simp only [complete_key_migration, if_pos hm]
      simp [Except.map, List.take_succ_cons, VersionedKey.set_status,
        VersionedKey.set_migration_progress, clampUnit]

/-- Witness for `complete_key_migration_spec` at the concrete `Migrating`
state `demoKeys2`. -/
theorem complete_key_migration_spec_witness :
    ((complete_key_migration demoKeys2).map fun l =>
        l.head?.map fun c => (c.status, c.migration_progress)) =
      .ok (some (KeyStatus.Active, (1 : ℚ))) :=
  (complete_key_migration_spec demoKeys2 _ rfl).2 rfl

/-- Claim C8: `rollback_migration` fails when the newest key is not
`Migrating`; on a `Migrating` newest key it succeeds, the newest key ends
`Deprecated` with `migration_progress` 0, and the first key in the
resulting list whose version equals the linked predecessor version (when
one is present) ends `Active`. -/
theorem rollback_migration_spec (ks : List VersionedKey) (k : VersionedKey)
    (hhead : ks.head? = some k)
    (hpred : k.predecessor_version ≠ some k.version) :
    (k.status ≠ KeyStatus.Migrating →
      rollback_migration ks = .error RotationFailure.keyNotMigrating) ∧
    (k.status = KeyStatus.Migrating →
      ((rollback_migration ks).map fun l =>
          l.head?.map fun c => (c.status, c.migration_progress)) =
        .ok (some (KeyStatus.Deprecated, (0 : ℚ))) ∧
      (∀ pv l' m, k.predecessor_version = some pv →
        rollback_migration ks = .ok l' →
        l'.find? (fun x => x.version == pv) = some m →
        m.status = KeyStatus.Active)) := by
  cases ks with
  | nil => simp at hhead
  | cons current rest =>
    simp only [List.head?_cons, Option.some.injEq] at hhead
    subst hhead
    constructor
    · intro hm
      simp [rollback_migration, hm]
    · intro hm
      have hne : ∀ pv, current.predecessor_version = some pv → ¬ current.version = pv := by
        intro pv hp he
        exact hpred (by rw [hp, he])
      constructor
      · cases hp : current.predecessor_version with
        | none =>
          simp only [rollback_migration, if_pos hm, hp]
          simp [Except.map, VersionedKey.set_status, VersionedKey.set_migration_progress,
            clampUnit]
        | some pv =>
          have hv : ¬ ((current.set_migration_progress 0).set_status .Deprecated).version = pv := by
            simpa [VersionedKey.set_status, VersionedKey.set_migration_progress]
              using hne pv hp
          simp only [rollback_migration, if_pos hm, hp]
          rw [setStatusFirstMatch]
          rw [if_neg hv]
          cases hrest : setStatusFirstMatch pv KeyStatus.Active rest with
          | none =>
            simp [Except.map, VersionedKey.set_status, VersionedKey.set_migration_progress,
              clampUnit]
          | some rest' =>
            simp [Except.map, VersionedKey.set_status, VersionedKey.set_migration_progress,
              clampUnit]
      · intro pv l' m hpv hok hfind
        simp only [rollback_migration, if_pos hm, hpv, Except.ok.injEq] at hok
        cases hmat : setStatusFirstMatch pv KeyStatus.Active
            (((current.set_migration_progress 0).set_status .Deprecated) :: rest) with
        | some u =>
          rw [hmat] at hok
          simp only [Option.getD_some] at hok
          subst hok
          exact setStatusFirstMatch_find_active hmat m hfind
        | none =>
          rw [hmat] at hok
          simp only [Option.getD_none] at hok
          subst hok
          rw [setStatusFirstMatch_none_find hmat] at hfind
          exact absurd hfind (by simp)

/-- Witness for `rollback_migration_spec` at the concrete `Migrating`
state `demoKeys2`: the rolled-back key ends `Deprecated` at progress 0 and
the predecessor key (version 1.0.0) is reactivated. -/
theorem rollback_migration_spec_witness :
    ((rollback_migration demoKeys2).map fun l =>
        l.head?.map fun c => (c.status, c.migration_progress)) =
      .ok (some (KeyStatus.Deprecated, (0 : ℚ))) ∧
    (((rollback_migration demoKeys2).toOption.getD []).find?
        (fun x => x.version == KeyVersion.new 1 0 0 1)).map VersionedKey.status =
      some KeyStatus.Active := by
  have h := (rollback_migration_spec demoKeys2 _ rfl (by decide)).2 rfl
  refine ⟨h.1, ?_⟩
  have hok : rollback_migration demoKeys2 =
      .ok ((rollback_migration demoKeys2).toOption.getD []) := rfl
  cases hfind : ((rollback_migration demoKeys2).toOption.getD []).find?
      (fun x => x.version == KeyVersion.new 1 0 0 1) with
  | none => exact absurd hfind (by decide)
  | some m =>
    have hact := h.2 (KeyVersion.new 1 0 0 1) _ m rfl hok hfind
    simp [hact]

/-- Claim C9: starting from an empty purpose, two sequential rotations each
completed with `complete_key_migration` produce the version sequence
1.0.0 → 1.1.0 → 1.2.0 (list is newest first), and while the 1.0.0 key is
retained, `find_key_for_decryption` for version 1.0.0 returns a usable key
— the 1.2.0 key, whose `can_decrypt_data_from_version(1.0.0)` holds. -/
theorem two_completed_rotations_scenario :
    scenarioProfile = .ok profileKeys ∧
    profileKeys.map (fun k => k.version.triple) = [(1, 2, 0), (1, 1, 0), (1, 0, 0)] ∧
    ((find_key_for_decryption 4 (KeyVersion.new 1 0 0 1) profileKeys).map fun k =>
        (k.version.triple, k.is_usable 4, k.can_decrypt_data_from_version (KeyVersion.new 1 0 0 1)))
      = some ((1, 2, 0), true, true) :=
  ⟨rfl, by decide, by decide⟩

end Legacy

/-- Claim C3: the modular `VersionedKey::can_decrypt_data_from_version`
accepts `v` exactly when `v` is a member of the explicit
`supported_decryption_versions` allow-list. -/
theorem can_decrypt_iff_supported_member (k : Modular.VersionedKey) (v : KeyVersion) :
    k.can_decrypt_data_from_version v = true ↔ v ∈ k.supported_decryption_versions := by
  simp [Modular.VersionedKey.can_decrypt_data_from_version]

/-- Claim C7: `should_trigger_rotation` returns true exactly when a present
security event is registered as a trigger with emergency rotation enabled
(regardless of `trigger_type`), or the configured trigger condition holds:
`TimeBased` at `age ≥ max_age_days × 24`, `UsageBased` at
`usage ≥ max_usage_count` (false when unset), `EventBased` whenever any
event is present, never for `Manual`, always for `Emergency`. -/
theorem should_trigger_rotation_spec (p : RotationPolicy) (age usage : Nat)
    (ev : Option SecurityEventType) :
    p.should_trigger_rotation age usage ev = true ↔
      ((∃ e, ev = some e ∧ p.emergency_rotation_enabled = true ∧
          e ∈ p.security_event_triggers) ∨
       (p.trigger_type = .TimeBased ∧ p.max_age_days * 24 ≤ age) ∨
       (p.trigger_type = .UsageBased ∧ ∃ m, p.max_usage_count = some m ∧ m ≤ usage) ∨
       (p.trigger_type = .EventBased ∧ ev.isSome = true) ∨
       p.trigger_type = .Emergency) := by
  unfold RotationPolicy.should_trigger_rotation
  cases ev with
  | none =>
    simp only [Option.any_none, Bool.false_eq_true, if_false]
    cases htt : p.trigger_type with
    | UsageBased =>
      cases hmu : p.max_usage_count with
      | none => simp [htt, hmu]
      | some mc => simp [htt, hmu]
    | _ => simp [htt]
  | some e =>
    simp only [Option.any_some]
    by_cases hcond :
        (p.emergency_rotation_enabled && p.security_event_triggers.contains e) = true
    · obtain ⟨hen, hmem⟩ :
          p.emergency_rotation_enabled = true ∧ e ∈ p.security_event_triggers := by
        simpa using hcond
      rw [if_pos hcond]
      exact iff_of_true rfl (Or.inl ⟨e, rfl, hen, hmem⟩)
    · rw [if_neg hcond]
      have hnc : p.emergency_rotation_enabled = true → e ∉ p.security_event_triggers :=
        fun hen hmem => hcond (by simp [hen, hmem])
      cases htt : p.trigger_type with
      | UsageBased =>
        cases hmu : p.max_usage_count with
        | none =>
          simp only [htt, hmu]
          simp
          exact hnc
        | some mc =>
          simp only [htt, hmu]
          simp
          exact fun hen hmem => absurd hmem (hnc hen)
      | TimeBased =>
        simp only [htt]
        simp
        exact fun hen hmem => absurd hmem (hnc hen)
      | EventBased => simp [htt]
      | Manual =>
        simp only [htt]
        simp
        exact hnc
      | Emergency => simp [htt]

/-- Claim C10: derived `KeyVersion` equality compares `created_at` (and
`expires_at`) in addition to the (major, minor, patch) triple, so two
versions with the same triple but different creation instants are unequal;
consequently a version whose creation instant matches no stored entry is
found neither by the `supported_decryption_versions` membership test of
`can_decrypt_data_from_version` nor by the exact-version lookup of
`get_key_by_version`. -/
theorem key_version_equality_includes_created_at (v1 v2 : KeyVersion)
    (_hmaj : v1.major = v2.major) (_hmin : v1.minor = v2.minor)
    (_hpat : v1.patch = v2.patch) (hca : v1.created_at ≠ v2.created_at) :
    v1 ≠ v2 ∧
    (∀ k : Modular.VersionedKey,
      (∀ w ∈ k.supported_decryption_versions, w.created_at ≠ v2.created_at) →
      k.can_decrypt_data_from_version v2 = false) ∧
    (∀ keys : List Modular.VersionedKey,
      (∀ x ∈ keys, x.version.created_at ≠ v2.created_at) →
      Modular.get_key_by_version keys v2 = none) := by
  refine ⟨?_, ?_, ?_⟩
  · intro h
    exact hca (by rw [h])
  · intro k hall
    have hnotmem : ¬ v2 ∈ k.supported_decryption_versions :=
      fun hmem => hall v2 hmem rfl
    simp [Modular.VersionedKey.can_decrypt_data_from_version, hnotmem]
  · intro keys hall
    rw [Modular.get_key_by_version, List.find?_eq_none]
    intro x hx
    simp only [beq_iff_eq]
    intro he
    exact hall x hx (by rw [he])

/-- Witness for `key_version_equality_includes_created_at`: two 1.0.0
versions created at instants 5 and 6, and a key / key list storing only the
instant-5 version. -/
theorem key_version_equality_includes_created_at_witness :
    KeyVersion.new 1 0 0 5 ≠ KeyVersion.new 1 0 0 6 ∧
    (Modular.VersionedKey.new (KeyVersion.new 1 0 0 5) .CycleData 5).can_decrypt_data_from_version
      (KeyVersion.new 1 0 0 6) = false ∧
    Modular.get_key_by_version
      [Modular.VersionedKey.new (KeyVersion.new 1 0 0 5) .CycleData 5]
      (KeyVersion.new 1 0 0 6) = none := by
  have h := key_version_equality_includes_created_at (KeyVersion.new 1 0 0 5)
    (KeyVersion.new 1 0 0 6) rfl rfl rfl (by decide)
  exact ⟨h.1, h.2.1 _ (by decide), h.2.2 _ (by decide)⟩

/-- Counterexample to Claim C4 as stated: after commitments from
`device-c` and `device-d` — neither of which is a participating device —
the protocol is already in `RevealPhase` although participating device
`device-a` (and `device-b`) has no stored commitment.
`process_device_commitment` stores commitments from arbitrary device ids
and `all_devices_committed` only compares the commitment count with the
participant count. -/
theorem commitment_advance_without_participant :
    Sync.CrossDeviceRotationSync.protocolState demoSyncC2 =
      Sync.ProtocolState.RevealPhase ∧
    "device-a" ∈ Sync.CrossDeviceRotationSync.participants demoSyncC2 ∧
    Sync.assocFind (Sync.CrossDeviceRotationSync.commitments demoSyncC2) "device-a" =
      none := by
  refine ⟨rfl, by decide, rfl⟩

/-- Claim C4 (amended): `process_device_commitment` stores the commitment
under the submitting device id, and the protocol advances to `RevealPhase`
exactly when the number of stored commitments (distinct device ids, from
participants or not) reaches the participating-device count; below that
count the protocol phase is unchanged. -/
theorem process_device_commitment_advance_spec
    (s : Sync.CrossDeviceRotationSync) (device_id commitment_hash nonce : String)
    (now : Nat) :
    Sync.CrossDeviceRotationSync.commitments
        (s.process_device_commitment device_id commitment_hash nonce now) =
      Sync.assocInsert (Sync.CrossDeviceRotationSync.commitments s) device_id
        { device_id, commitment_hash, nonce, timestamp := now } ∧
    ((Sync.CrossDeviceRotationSync.participants s).length ≤
        (Sync.assocInsert (Sync.CrossDeviceRotationSync.commitments s) device_id
          { device_id, commitment_hash, nonce, timestamp := now }).length →
      Sync.CrossDeviceRotationSync.protocolState
          (s.process_device_commitment device_id commitment_hash nonce now) =
        Sync.ProtocolState.RevealPhase) ∧
    ((Sync.assocInsert (Sync.CrossDeviceRotationSync.commitments s) device_id
          { device_id, commitment_hash, nonce, timestamp := now }).length <
        (Sync.CrossDeviceRotationSync.participants s).length →
      Sync.CrossDeviceRotationSync.protocolState
          (s.process_device_commitment device_id commitment_hash nonce now) =
        Sync.CrossDeviceRotationSync.protocolState s) := by
  simp only [Sync.CrossDeviceRotationSync.process_device_commitment]
  split
  case isTrue h =>
    refine ⟨rfl, fun _ => rfl, fun hlt => ?_⟩
    simp only [Sync.CrossDeviceRotationSync.all_devices_committed, decide_eq_true_eq,
      Sync.CrossDeviceRotationSync.updateProtocol] at h
    simp only [Sync.CrossDeviceRotationSync.participants,
      Sync.CrossDeviceRotationSync.commitments] at hlt
    exact absurd h (by omega)
  case isFalse h =>
    refine ⟨rfl, fun hle => ?_, fun _ => rfl⟩
    simp only [Sync.CrossDeviceRotationSync.all_devices_committed, decide_eq_true_eq,
      Sync.CrossDeviceRotationSync.updateProtocol] at h
    simp only [Sync.CrossDeviceRotationSync.participants,
      Sync.CrossDeviceRotationSync.commitments] at hle
    exact absurd hle h

/-- Witness for `process_device_commitment_advance_spec`: the second
commitment onto `demoSyncC1` reaches the participant count and advances
the protocol to `RevealPhase`. -/
theorem process_device_commitment_advance_spec_witness :
    (Sync.CrossDeviceRotationSync.participants demoSyncC1).length ≤
      (Sync.assocInsert (Sync.CrossDeviceRotationSync.commitments demoSyncC1) "device-d"
        { device_id := "device-d", commitment_hash := "hash-d", nonce := "nonce-d",
          timestamp := 2 }).length ∧
    Sync.CrossDeviceRotationSync.protocolState demoSyncC2 =
      Sync.ProtocolState.RevealPhase := by
  refine ⟨by decide, ?_⟩
  exact (process_device_commitment_advance_spec demoSyncC1 "device-d" "hash-d"
    "nonce-d" 2).2.1 (by decide)

/-- Claim C5: for a device with a stored commitment `c`,
`process_device_reveal` returns the "Invalid commitment verification"
error and leaves the state (in particular the reveal map) unchanged
whenever the recomputed hash `H(rotation_proof, stored nonce)` differs
from `c`'s commitment hash; the reveal is accepted exactly when the
recomputed hash equals the stored commitment hash. -/
theorem process_device_reveal_spec (hashFn : String → String → String)
    (s : Sync.CrossDeviceRotationSync)
    (device_id rotation_proof integrity_hash : String) (now : Nat)
    (c : Sync.DeviceCommitment)
    (hc : Sync.assocFind (Sync.CrossDeviceRotationSync.commitments s) device_id = some c) :
    (hashFn rotation_proof c.nonce ≠ c.commitment_hash →
      s.process_device_reveal hashFn device_id rotation_proof integrity_hash now =
        (.error "Invalid commitment verification", s)) ∧
    ((s.process_device_reveal hashFn device_id rotation_proof integrity_hash now).1 =
        .ok () ↔ hashFn rotation_proof c.nonce = c.commitment_hash) := by
  have hverify : Sync.CrossDeviceRotationSync.verify_device_commitment hashFn s
      device_id rotation_proof = (hashFn rotation_proof c.nonce == c.commitment_hash) := by
    unfold Sync.CrossDeviceRotationSync.verify_device_commitment
    rw [hc]
  constructor
  · intro hne
    simp only [Sync.CrossDeviceRotationSync.process_device_reveal]
    rw [hverify, if_neg (by simp [hne])]
  · simp only [Sync.CrossDeviceRotationSync.process_device_reveal]
    rw [hverify]
    by_cases heq : hashFn rotation_proof c.nonce = c.commitment_hash
    · rw [if_pos (by simp [heq])]
      exact iff_of_true (by split <;> rfl) heq
    · rw [if_neg (by simp [heq])]
      simp [heq]

/-- Witness for `process_device_reveal_spec`: with the commitment stored
for `device-c` in `demoSyncC1` and the concrete hash function
`fun p n => p ++ n`, revealing a proof whose recomputed hash differs from
the stored `hash-c` is rejected and the state is unchanged. -/
theorem process_device_reveal_spec_witness :
    (fun (p n : String) => p ++ n) "proof-x" "nonce-c" ≠ "hash-c" ∧
    Sync.CrossDeviceRotationSync.process_device_reveal (fun p n => p ++ n) demoSyncC1
      "device-c" "proof-x" "integrity-x" 3 =
      (.error "Invalid commitment verification", demoSyncC1) := by
  refine ⟨by decide, ?_⟩
  exact (process_device_reveal_spec (fun p n => p ++ n) demoSyncC1 "device-c"
    "proof-x" "integrity-x" 3
    { device_id := "device-c", commitment_hash := "hash-c", nonce := "nonce-c",
      timestamp := 1 } (by decide)).1 (by decide)

end Aura
